import Mathlib

/-!
Shallow embedding of the blogicum blog application
(src/blogicum/blog/views.py and src/blogicum/blog/forms.py), covering the
post/comment visibility logic, the three listing feeds, and the mutating
views.  Database rows are lists of records; `timezone.now()` values are
passed explicitly as integers; the object-relational store's query filters
become `List.filter`; `get_object_or_404` becomes `List.find?`.
Ordering (`order_by('-pub_date')`) is performed by the store collaborator,
so a list argument stands for the store's already-ordered result.
-/

/-- A blog category row: `Category(slug, is_published, ...)`. -/
structure Category where
  id : Nat
  slug : String
  is_published : Bool
  deriving DecidableEq

/-- A blog post row.  `category` is a nullable foreign key; `pub_date` is a
timestamp modelled as an integer; `location`/`image` are nullable fields
unused by the visibility logic. -/
structure Post where
  id : Nat
  author_id : Nat
  category : Option Category
  location : Option Nat
  title : String
  text : String
  image : Option String
  is_published : Bool
  pub_date : Int
  deriving DecidableEq

/-- A comment row: `Comment(post, author, text, is_published, created_at)`. -/
structure Comment where
  id : Nat
  post_id : Nat
  author_id : Nat
  text : String
  is_published : Bool
  created_at : Int
  deriving DecidableEq

/-- The requesting identity (`request.user`): anonymous, or authenticated
with an account id and a staff flag. -/
inductive Viewer where
  | anonymous
  | authenticated (user_id : Nat) ( is_staff : Bool)
  deriving DecidableEq

/-- An HTTP request method, as far as the views distinguish them
(`request.method == 'POST'` or anything else). -/
inductive HttpMethod where
  | get
  | post
  deriving DecidableEq

/-- The page templates the views render. -/
inductive Template where
  | detail_page
  | category_page
  | create_page
  | comment_page
  deriving DecidableEq

/-- Redirect targets used by the views. -/
inductive Target where
  | to_post_detail (post_id : Nat)
  | to_profile (user_id : Nat)
  deriving DecidableEq

/-- A view's response, as far as the claims distinguish them. -/
inductive Response where
  | ok (t : Template)
  | redirect (t : Target)
  | forbidden
  | not_found
  deriving DecidableEq

/-- The visibility check embedded in `post_detail` (views.py lines 52-60):
public-visibility branch first, then the author branch
(`request.user.is_authenticated and post.author == request.user`), then the
staff branch (`request.user.is_authenticated and request.user.is_staff`). -/
def post_detail_can_view (post : Post) (viewer : Viewer) (now : Int) : Bool :=
  if post.is_published && decide (post.pub_date ≤ now) &&
      (match post.category with
       | none => true
       | some c => c.is_published) then
    true
  else if (match viewer with
           | Viewer.anonymous => false
           | Viewer.authenticated uid _ => uid == post.author_id) then
    true
  else if (match viewer with
           | Viewer.anonymous => false
           | Viewer.authenticated _ s => s) then
    true
  else
    false

/-- The visibility check embedded in the `category_posts` loop (views.py
lines 95-107), transcribed separately from its own call site. -/
def category_posts_can_view (post : Post) (viewer : Viewer) (now : Int) : Bool :=
  if post.is_published && decide (post.pub_date ≤ now) &&
      (match post.category with
       | none => true
       | some c => c.is_published) then
    true
  else if (match viewer with
           | Viewer.anonymous => false
           | Viewer.authenticated uid _ => uid == post.author_id) then
    true
  else if (match viewer with
           | Viewer.anonymous => false
           | Viewer.authenticated _ s => s) then
    true
  else
    false

/-- The visibility predicate exactly as the specification words it:
author branch, staff branch, or the public publication gate. -/
def spec_can_view (post : Post) (viewer : Viewer) (now : Int) : Prop :=
  (∃ uid s, viewer = Viewer.authenticated uid s ∧ uid = post.author_id) ∨
  (∃ uid, viewer = Viewer.authenticated uid true) ∨
  (post.is_published = true ∧ post.pub_date ≤ now ∧
    (post.category = none ∨ ∃ c, post.category = some c ∧ c.is_published = true))

/-- C1: the single-post visibility decision is true iff the viewer is the
authenticated author, or an authenticated staff member, or the post passes
the public publication gate; in particular the author and staff always see
the post regardless of its publication state. -/
theorem C1_can_view_characterization (post : Post) (viewer : Viewer) (now : Int)
    (uid : Nat) (s : Bool) :
    (post_detail_can_view post viewer now = true ↔ spec_can_view post viewer now) ∧
    post_detail_can_view post (Viewer.authenticated post.author_id s) now = true ∧
    post_detail_can_view post (Viewer.authenticated uid true) now = true := by
  refine ⟨?_, ?_, ?_⟩
  · cases viewer with
    | anonymous =>
        cases hc : post.category with
        | none =>
            simp [post_detail_can_view, spec_can_view, hc]
        | some c =>
            simp [post_detail_can_view, spec_can_view, hc]
            tauto
    | authenticated u st =>
        cases hc : post.category <;> cases st <;>
          simp [post_detail_can_view, spec_can_view, hc] <;> tauto
  · cases hc : post.category <;> simp [post_detail_can_view, hc]
  · cases hc : post.category <;> simp [post_detail_can_view, hc]

/-- C3: the visibility branch duplicated in `post_detail` and in the
`category_posts` loop computes the same boolean on every input. -/
theorem C3_duplicated_checks_agree (post : Post) (viewer : Viewer) (now : Int) :
    post_detail_can_view post viewer now = category_posts_can_view post viewer now := by
  rfl

/-- The related-field lookup `category__is_published=True` in a query: a
null category joins to no row, so a post without a category is excluded. -/
def category_field_is_published (post : Post) : Bool :=
  match post.category with
  | none => false
  | some c => c.is_published

/-- The home-page feed (`index`, views.py lines 31-44), pre-pagination:
`filter_posts(is_published=True, category__is_published=True,
pub_date__lte=timezone.now())`.  No per-viewer check is applied. -/
def index (posts : List Post) (now : Int) : List Post :=
  posts.filter (fun p =>
    p.is_published && category_field_is_published p && decide (p.pub_date ≤ now))

/-- The candidate query of `category_posts` (views.py lines 87-91):
`filter_posts(is_published=True, pub_date__lte=timezone.now(),
category=category)`.  `qnow` is the `timezone.now()` value of line 89. -/
def all_category_posts (posts : List Post) (cat : Category) (qnow : Int) : List Post :=
  posts.filter (fun p =>
    p.is_published && decide (p.pub_date ≤ qnow) && decide (p.category = some cat))

/-- The `visible_posts` loop of `category_posts` (views.py lines 93-110):
appends, in order, every candidate passing the embedded visibility check. -/
def visible_posts (candidates : List Post) (viewer : Viewer) (now : Int) : List Post :=
  candidates.filter (fun p => category_posts_can_view p viewer now)

/-- The category-page feed pre-pagination: the query followed by the
per-post loop.  `now` is the value bound at line 86, `qnow` the separate
`timezone.now()` call inside the query at line 89. -/
def category_posts (posts : List Post) (cat : Category) (viewer : Viewer)
    (now qnow : Int) : List Post :=
  visible_posts (all_category_posts posts cat qnow) viewer now

/-- The profile-page feed (`profile_view`, views.py lines 138-146),
pre-pagination: `Post.objects.filter(author=user_obj)` — every post of the
profiled author, with no visibility filtering at all. -/
def profile_view (posts : List Post) (uid : Nat) : List Post :=
  posts.filter (fun p => p.author_id == uid)

/-- A sample post: unpublished, authored by user 1, no category. -/
def ex_unpublished_post : Post :=
  { id := 1, author_id := 1, category := none, location := none,
    title := "", text := "", image := none,
    is_published := false, pub_date := 0 }

/-- C2 counterexample: the profile feed for user 1 contains their
unpublished post although an anonymous viewer cannot view it, so the
pre-pagination listings are not characterized by the per-post visibility
decision. -/
theorem C2_counterexample :
    ex_unpublished_post ∈ profile_view [ex_unpublished_post] 1 ∧
    post_detail_can_view ex_unpublished_post Viewer.anonymous 10 = false := by
  decide

/-- C2 (amended): what each pre-pagination feed actually contains.  The
home page holds exactly the published, past-dated posts whose category
exists and is published (no author or staff override); the category page
holds the publicly-filtered candidates of the category that additionally
pass the per-post visibility check; the profile page holds every post of
the profiled author, for every viewer. -/
theorem C2_feed_membership (posts : List Post) (p : Post) (cat : Category)
    (viewer : Viewer) (now qnow : Int) (uid : Nat) :
    (p ∈ index posts now ↔
      p ∈ posts ∧ p.is_published = true ∧ category_field_is_published p = true ∧
        p.pub_date ≤ now) ∧
    (p ∈ category_posts posts cat viewer now qnow ↔
      p ∈ posts ∧ p.is_published = true ∧ p.pub_date ≤ qnow ∧ p.category = some cat ∧
        category_posts_can_view p viewer now = true) ∧
    (p ∈ profile_view posts uid ↔ p ∈ posts ∧ p.author_id = uid) := by
  refine ⟨?_, ?_, ?_⟩
  · simp [index, List.mem_filter, and_assoc]
  · simp [category_posts, visible_posts, all_category_posts, List.mem_filter, and_assoc]
    tauto
  · simp [profile_view, List.mem_filter]

/-- The category-page gate (views.py lines 81-85):
`get_object_or_404(Category, slug=category_slug, is_published=True)`. -/
def resolve_category (cats : List Category) (slug : String) : Option Category :=
  cats.find? (fun c => c.slug == slug && c.is_published)

/-- C4: resolving a category page succeeds iff a category with the
requested slug exists and is published; otherwise the lookup yields the
not-found outcome.  The gate is independent of the per-post category
check: a post whose category is unpublished has no resolvable category
page, yet its author still passes the per-post visibility decision. -/
theorem C4_category_gate (cats : List Category) (slug : String) (c : Category)
    (p : Post) (now : Int) (s : Bool) (hc : c.is_published = false) :
    ((resolve_category cats slug).isSome = true ↔
      ∃ d, d ∈ cats ∧ d.slug = slug ∧ d.is_published = true) ∧
    resolve_category [c] c.slug = none ∧
    post_detail_can_view p (Viewer.authenticated p.author_id s) now = true := by
  refine ⟨?_, ?_, ?_⟩
  · simp [resolve_category, List.find?_isSome]
  · simp [resolve_category, List.find?, hc]
  · cases hcat : p.category <;> simp [post_detail_can_view, hcat]

/-- C5: the visibility-filtering loop keeps the surviving posts in their
original relative order — the output is a subsequence of the input. -/
theorem C5_filtering_preserves_order (candidates : List Post) (viewer : Viewer)
    (now : Int) :
    List.Sublist (visible_posts candidates viewer now) candidates := by
  exact List.filter_sublist candidates

/-- Lookup `get_object_or_404(Post, pk=post_id)`. -/
def find_post (posts : List Post) (pid : Nat) : Option Post :=
  posts.find? (fun p => p.id == pid)

/-- Lookup `get_object_or_404(Comment, pk=comment_id, post__pk=post_id)`. -/
def find_comment (comments : List Comment) (cid pid : Nat) : Option Comment :=
  comments.find? (fun c => c.id == cid && c.post_id == pid)

/-- Saving a post instance: the row with the same primary key is replaced. -/
def save_post (posts : List Post) (saved : Post) : List Post :=
  posts.map (fun q => if q.id == saved.id then saved else q)

/-- Saving a comment instance: the row with the same primary key is replaced. -/
def save_comment (comments : List Comment) (saved : Comment) : List Comment :=
  comments.map (fun q => if q.id == saved.id then saved else q)

/-- The cleaned data of a valid `PostForm` (forms.py lines 27-38): fields
`category, location, title, text, image, pub_date, is_published`.  A blank
`pub_date` field is `none`. -/
structure PostFormData where
  category : Option Category
  location : Option Nat
  title : String
  text : String
  image : Option String
  pub_date : Option Int
  is_published : Bool
  deriving DecidableEq

/-- The cleaned data of a valid `CommentForm` (forms.py lines 41-47):
only the `text` field. -/
structure CommentFormData where
  text : String
  deriving DecidableEq

/-- `PostForm.save` on an existing instance: the form's fields overwrite the
instance's; a blank `pub_date` leaves the stored timestamp (form validation,
delegated to the framework, supplies a concrete value on the valid path). -/
def post_form_save (p : Post) (f : PostFormData) : Post :=
  { p with category := f.category, location := f.location, title := f.title,
           text := f.text, image := f.image,
           pub_date := match f.pub_date with | none => p.pub_date | some d => d,
           is_published := f.is_published }

/-- `CommentForm.save(commit=False)` on an existing instance: only `text`
is taken from the form. -/
def comment_form_save (c : Comment) (f : CommentFormData) : Comment :=
  { c with text := f.text }

/-- The `post_detail` view (views.py lines 47-76): fetch the post, decide
visibility, and on success return the post together with all of its
comments (`post.comments.all()`, no per-comment filter); `none` models the
404 outcome. -/
def post_detail (posts : List Post) (comments : List Comment) (pid : Nat)
    (viewer : Viewer) (now : Int) : Option (Post × List Comment) :=
  match find_post posts pid with
  | none => none
  | some p =>
      if post_detail_can_view p viewer now then
        some (p, comments.filter (fun c => c.post_id == p.id))
      else
        none

/-- The `create_post` view (views.py lines 167-185), valid-form path: on a
POST the saved post takes the form's fields but its author is the
requesting user, `is_published` is forced to `true`, and a blank `pub_date`
is replaced by `timezone.now()`; otherwise the creation page is rendered. -/
def create_post (posts : List Post) (uid : Nat) (m : HttpMethod)
    (f : PostFormData) (now : Int) (new_id : Nat) : Response × List Post :=
  match m with
  | HttpMethod.post =>
      let p : Post :=
        { id := new_id, author_id := uid, category := f.category,
          location := f.location, title := f.title, text := f.text,
          image := f.image, is_published := true,
          pub_date := match f.pub_date with | none => now | some d => d }
      (Response.redirect (Target.to_profile uid), posts ++ [p])
  | HttpMethod.get => (Response.ok Template.create_page, posts)

/-- The `edit_post` view (views.py lines 188-202), valid-form path: a
requester who is not the author is redirected to the post's detail page
with nothing saved; the author saves the form on POST and sees the form
page otherwise. -/
def edit_post (posts : List Post) (pid uid : Nat) (m : HttpMethod)
    (f : PostFormData) : Response × List Post :=
  match find_post posts pid with
  | none => (Response.not_found, posts)
  | some p =>
      if p.author_id ≠ uid then
        (Response.redirect (Target.to_post_detail p.id), posts)
      else
        match m with
        | HttpMethod.post =>
            let saved := post_form_save p f
            (Response.redirect (Target.to_post_detail saved.id), save_post posts saved)
        | HttpMethod.get => (Response.ok Template.create_page, posts)

/-- The `delete_post` view (views.py lines 205-219): a non-author is
redirected; the author deletes on POST and gets a confirmation page on any
other method. -/
def delete_post (posts : List Post) (pid uid : Nat) (m : HttpMethod) :
    Response × List Post :=
  match find_post posts pid with
  | none => (Response.not_found, posts)
  | some p =>
      if p.author_id ≠ uid then
        (Response.redirect (Target.to_post_detail p.id), posts)
      else
        match m with
        | HttpMethod.post =>
            (Response.redirect (Target.to_profile uid),
             posts.filter (fun q => decide (q.id ≠ p.id)))
        | HttpMethod.get => (Response.ok Template.create_page, posts)

/-- The `edit_comment` view (views.py lines 246-268), valid-form path: a
requester who is not the comment's author gets a forbidden response with
nothing saved; the author's POST saves the form's `text` and forces
`is_published := true` on the comment; any other method renders the form. -/
def edit_comment (comments : List Comment) (pid cid uid : Nat)
    (m : HttpMethod) (f : CommentFormData) : Response × List Comment :=
  match find_comment comments cid pid with
  | none => (Response.not_found, comments)
  | some c =>
      if c.author_id ≠ uid then
        (Response.forbidden, comments)
      else
        match m with
        | HttpMethod.post =>
            let saved := { comment_form_save c f with is_published := true }
            (Response.redirect (Target.to_post_detail pid), save_comment comments saved)
        | HttpMethod.get => (Response.ok Template.comment_page, comments)

/-- The `delete_comment` view (views.py lines 271-286): a non-author gets a
forbidden response; the author deletes on POST and gets a confirmation page
on any other method. -/
def delete_comment (comments : List Comment) (pid cid uid : Nat)
    (m : HttpMethod) : Response × List Comment :=
  match find_comment comments cid pid with
  | none => (Response.not_found, comments)
  | some c =>
      if c.author_id ≠ uid then
        (Response.forbidden, comments)
      else
        match m with
        | HttpMethod.post =>
            (Response.redirect (Target.to_post_detail pid),
             comments.filter (fun q => decide (q.id ≠ c.id)))
        | HttpMethod.get => (Response.ok Template.comment_page, comments)

/-- A sample post authored by user 1, published. -/
def ex_post_author1 : Post :=
  { id := 3, author_id := 1, category := none, location := none,
    title := "", text := "", image := none,
    is_published := true, pub_date := 0 }

/-- A sample comment by user 1 on post 3. -/
def ex_comment_author1 : Comment :=
  { id := 4, post_id := 3, author_id := 1, text := "",
    is_published := false, created_at := 0 }

/-- A sample publicly visible post (published, past-dated, no category). -/
def ex_published_post : Post :=
  { id := 5, author_id := 1, category := none, location := none,
    title := "", text := "", image := none,
    is_published := true, pub_date := 0 }

/-- A sample comment on post 5. -/
def ex_comment_on5 : Comment :=
  { id := 6, post_id := 5, author_id := 2, text := "",
    is_published := false, created_at := 0 }

/-- A sample valid post form submission. -/
def ex_post_form : PostFormData :=
  { category := none, location := none, title := "", text := "",
    image := none, pub_date := none, is_published := false }

/-- A sample valid comment form submission. -/
def ex_comment_form : CommentFormData :=
  { text := "" }

/-- C6: when the authenticated requester is not the record's author, each
mutating view answers with a redirect (posts) or a forbidden response
(comments) and returns the database unchanged, for every request method;
the read-visibility predicate plays no part in the decision. -/
theorem C6_non_author_mutation_rejected (posts : List Post)
    (comments : List Comment) (pid cid uid : Nat) (m : HttpMethod)
    (pf : PostFormData) (cf : CommentFormData) (p : Post) (c : Comment)
    (hp : find_post posts pid = some p) (hpa : p.author_id ≠ uid)
    (hc : find_comment comments cid pid = some c) (hca : c.author_id ≠ uid) :
    edit_post posts pid uid m pf =
      (Response.redirect (Target.to_post_detail p.id), posts) ∧
    delete_post posts pid uid m =
      (Response.redirect (Target.to_post_detail p.id), posts) ∧
    edit_comment comments pid cid uid m cf = (Response.forbidden, comments) ∧
    delete_comment comments pid cid uid m = (Response.forbidden, comments) := by
  refine ⟨?_, ?_, ?_, ?_⟩
  · simp [edit_post, hp, hpa]
  · simp [delete_post, hp, hpa]
  · simp [edit_comment, hc, hca]
  · simp [delete_comment, hc, hca]

/-- C6 witness: user 2 attempting to edit or delete user 1's post and
comment is rejected and nothing changes. -/
theorem C6_non_author_mutation_rejected_witness :
    find_post [ex_post_author1] 3 = some ex_post_author1 ∧
    ex_post_author1.author_id ≠ 2 ∧
    find_comment [ex_comment_author1] 4 3 = some ex_comment_author1 ∧
    ex_comment_author1.author_id ≠ 2 ∧
    (edit_post [ex_post_author1] 3 2 HttpMethod.post ex_post_form =
       (Response.redirect (Target.to_post_detail ex_post_author1.id), [ex_post_author1]) ∧
     delete_post [ex_post_author1] 3 2 HttpMethod.post =
       (Response.redirect (Target.to_post_detail ex_post_author1.id), [ex_post_author1]) ∧
     edit_comment [ex_comment_author1] 3 4 2 HttpMethod.post ex_comment_form =
       (Response.forbidden, [ex_comment_author1]) ∧
     delete_comment [ex_comment_author1] 3 4 2 HttpMethod.post =
       (Response.forbidden, [ex_comment_author1])) :=
  ⟨by decide, by decide, by decide, by decide,
   C6_non_author_mutation_rejected [ex_post_author1] [ex_comment_author1] 3 4 2
     HttpMethod.post ex_post_form ex_comment_form ex_post_author1 ex_comment_author1
     (by decide) (by decide) (by decide) (by decide)⟩

/-- C7: whenever the single-post view succeeds, the returned comment list
contains exactly the comments attached to the post — membership is
independent of any per-comment flag such as `is_published`. -/
theorem C7_all_comments_shown (posts : List Post) (comments : List Comment)
    (pid : Nat) (viewer : Viewer) (now : Int) (p : Post) (cs : List Comment)
    (h : post_detail posts comments pid viewer now = some (p, cs)) (c : Comment) :
    c ∈ cs ↔ c ∈ comments ∧ c.post_id = p.id := by
  unfold post_detail at h
  cases hf : find_post posts pid with
  | none => rw [hf] at h; exact absurd h (by simp)
  | some q =>
      rw [hf] at h
      by_cases hv : post_detail_can_view q viewer now = true
      · simp [hv] at h
        obtain ⟨hq, hcs⟩ := h
        subst hq
        subst hcs
        simp [List.mem_filter]
      · simp [hv] at h

/-- C7 witness: the unpublished comment on a viewable post is listed. -/
theorem C7_all_comments_shown_witness :
    post_detail [ex_published_post] [ex_comment_on5] 5 Viewer.anonymous 10 =
      some (ex_published_post, [ex_comment_on5]) ∧
    (ex_comment_on5 ∈ [ex_comment_on5] ↔
      ex_comment_on5 ∈ [ex_comment_on5] ∧ ex_comment_on5.post_id = ex_published_post.id) :=
  ⟨by decide,
   C7_all_comments_shown [ex_published_post] [ex_comment_on5] 5 Viewer.anonymous 10
     ex_published_post [ex_comment_on5] (by decide) ex_comment_on5⟩

/-- C8: every post written through `create_post` on a POST carries the
requesting user as author, `is_published = true` whatever the form said,
and `pub_date` defaulted to the creation time when the form left it blank;
the remaining fields come from the form. -/
theorem C8_create_post_fields (posts : List Post) (uid : Nat)
    (f : PostFormData) (now : Int) (new_id : Nat) :
    ∃ p : Post,
      create_post posts uid HttpMethod.post f now new_id =
        (Response.redirect (Target.to_profile uid), posts ++ [p]) ∧
      p.author_id = uid ∧ p.is_published = true ∧
      p.pub_date = (match f.pub_date with | none => now | some d => d) ∧
      p.title = f.title ∧ p.text = f.text ∧ p.category = f.category :=
  ⟨{ id := new_id, author_id := uid, category := f.category,
     location := f.location, title := f.title, text := f.text,
     image := f.image, is_published := true,
     pub_date := match f.pub_date with | none => now | some d => d },
   rfl, rfl, rfl, rfl, rfl, rfl, rfl⟩

/-- C9: a successful comment edit stores the comment with `text` taken from
the form and `is_published` forced to `true`, while its identifier, post
reference, author reference and creation time are unchanged. -/
theorem C9_edit_comment_effect (comments : List Comment) (pid cid uid : Nat)
    (f : CommentFormData) (c : Comment)
    (hc : find_comment comments cid pid = some c) (ha : c.author_id = uid) :
    edit_comment comments pid cid uid HttpMethod.post f =
      (Response.redirect (Target.to_post_detail pid),
       save_comment comments
         { id := c.id, post_id := c.post_id, author_id := c.author_id,
           text := f.text, is_published := true, created_at := c.created_at }) := by
  simp [edit_comment, hc, ha, comment_form_save]

/-- C9 witness: user 1 edits their own comment 4; the stored row keeps its
post and author and gains `is_published = true`. -/
theorem C9_edit_comment_effect_witness :
    find_comment [ex_comment_author1] 4 3 = some ex_comment_author1 ∧
    ex_comment_author1.author_id = 1 ∧
    edit_comment [ex_comment_author1] 3 4 1 HttpMethod.post ex_comment_form =
      (Response.redirect (Target.to_post_detail 3),
       save_comment [ex_comment_author1]
         { id := ex_comment_author1.id, post_id := ex_comment_author1.post_id,
           author_id := ex_comment_author1.author_id, text := ex_comment_form.text,
           is_published := true, created_at := ex_comment_author1.created_at }) :=
  ⟨by decide, by decide,
   C9_edit_comment_effect [ex_comment_author1] 3 4 1 ex_comment_form ex_comment_author1
     (by decide) (by decide)⟩

/-- C10: when the owning author issues a non-POST request, `delete_post`
and `delete_comment` render the confirmation page and leave the database
unchanged — state is mutated only on POST. -/
theorem C10_delete_confirms_on_get (posts : List Post) (comments : List Comment)
    (pid cid uid : Nat) (p : Post) (c : Comment)
    (hp : find_post posts pid = some p) (hpa : p.author_id = uid)
    (hc : find_comment comments cid pid = some c) (hca : c.author_id = uid) :
    delete_post posts pid uid HttpMethod.get =
      (Response.ok Template.create_page, posts) ∧
    delete_comment comments pid cid uid HttpMethod.get =
      (Response.ok Template.comment_page, comments) := by
  constructor
  · simp [delete_post, hp, hpa]
  · simp [delete_comment, hc, hca]

/-- C10 witness: author 1 issues GET deletions; both confirmation pages are
rendered and both rows survive. -/
theorem C10_delete_confirms_on_get_witness :
    find_post [ex_post_author1] 3 = some ex_post_author1 ∧
    ex_post_author1.author_id = 1 ∧
    find_comment [ex_comment_author1] 4 3 = some ex_comment_author1 ∧
    ex_comment_author1.author_id = 1 ∧
    (delete_post [ex_post_author1] 3 1 HttpMethod.get =
       (Response.ok Template.create_page, [ex_post_author1]) ∧
     delete_comment [ex_comment_author1] 3 4 1 HttpMethod.get =
       (Response.ok Template.comment_page, [ex_comment_author1])) :=
  ⟨by decide, by decide, by decide, by decide,
   C10_delete_confirms_on_get [ex_post_author1] [ex_comment_author1] 3 4 1
     ex_post_author1 ex_comment_author1 (by decide) (by decide) (by decide) (by decide)⟩

/-- A sample unpublished category. -/
def ex_unpub_category : Category :=
  { id := 7, slug := "", is_published := false }

/-- C4 witness: an unpublished category is not resolvable, while the author
of a post in it still passes the visibility decision. -/
theorem C4_category_gate_witness :
    ex_unpub_category.is_published = false ∧
    ((resolve_category [ex_unpub_category] "" ).isSome = true ↔
      ∃ d, d ∈ [ex_unpub_category] ∧ d.slug = "" ∧ d.is_published = true) ∧
    resolve_category [ex_unpub_category] ex_unpub_category.slug = none ∧
    post_detail_can_view ex_unpublished_post
      (Viewer.authenticated ex_unpublished_post.author_id false) 10 = true :=
  ⟨by decide,
   C4_category_gate [ex_unpub_category] "" ex_unpub_category ex_unpublished_post 10 false
     (by decide)⟩
